import Mathlib

/-!
Verification development for the ai-travel-agent repository.

The Python code is shallowly embedded in Lean.  Python strings are modeled
as lists of natural-number code points (`List Nat`); the repository only
manipulates ASCII text, and all regular-expression character classes that
appear in the source (`\w`, `\s`, `[A-Z]`) are embedded in their ASCII
meaning.  Dictionaries are modeled as association lists in their literal
order (Python dictionaries preserve insertion order and the tables contain
no duplicate keys).  `difflib.SequenceMatcher` is embedded with an empty
junk set: the inputs in play are far below the 200-character `autojunk`
threshold.  Floating point ratios are modeled as exact rationals; the
rationals that occur have tiny denominators, far apart relative to double
rounding error, so the comparisons agree with the Python floats.
-/

/-- Convert a Lean string literal to the code-point list model. -/
def S (s : String) : List Nat := s.data.map Char.toNat

/-- Code point of the apostrophe character. -/
def apos : Nat := 39

/-- Python whitespace (`str.strip`, regex `\s`, ASCII): space, tab, LF, CR, VT, FF. -/
def isPySpaceB (c : Nat) : Bool :=
  decide (c = 32 ∨ c = 9 ∨ c = 10 ∨ c = 13 ∨ c = 11 ∨ c = 12)

/-- ASCII letter. -/
def isAsciiAlphaB (c : Nat) : Bool :=
  decide ((65 ≤ c ∧ c ≤ 90) ∨ (97 ≤ c ∧ c ≤ 122))

/-- ASCII uppercase letter (regex `[A-Z]`). -/
def isUpperAlphaB (c : Nat) : Bool := decide (65 ≤ c ∧ c ≤ 90)

/-- ASCII digit. -/
def isAsciiDigitB (c : Nat) : Bool := decide (48 ≤ c ∧ c ≤ 57)

/-- Regex `\w` (ASCII): letter, digit or underscore. -/
def isWordCharB (c : Nat) : Bool := isAsciiAlphaB c || isAsciiDigitB c || decide (c = 95)

/-- Characters kept by `re.sub(r"[^\w\s\-\']", '', ...)`:
word characters, whitespace, hyphen (45) and apostrophe (39). -/
def keepCharB (c : Nat) : Bool := isWordCharB c || isPySpaceB c || decide (c = 45) || decide (c = 39)

/-- `str.lower` on one ASCII code point. -/
def pyLowerChar (c : Nat) : Nat := if 65 ≤ c ∧ c ≤ 90 then c + 32 else c

/-- `str.upper` on one ASCII code point. -/
def pyUpperChar (c : Nat) : Nat := if 97 ≤ c ∧ c ≤ 122 then c - 32 else c

/-- `str.lower`. -/
def pyLower (s : List Nat) : List Nat := s.map pyLowerChar

/-- `str.upper`. -/
def pyUpper (s : List Nat) : List Nat := s.map pyUpperChar

/-- `str.lstrip()`: drop whitespace from the front. -/
def pyLStrip (s : List Nat) : List Nat := s.dropWhile isPySpaceB

/-- `str.rstrip()`: drop whitespace from the back. -/
def pyRStrip (s : List Nat) : List Nat := (s.reverse.dropWhile isPySpaceB).reverse

/-- `str.strip()`: drop whitespace from both ends. -/
def pyStrip (s : List Nat) : List Nat := pyRStrip (pyLStrip s)

/-- Worker for `collapseWS`: `prevSpace` records whether the previous kept
character came from a whitespace run still being absorbed. -/
def collapseWSAux (prevSpace : Bool) : List Nat → List Nat
  | [] => []
  | c :: rest =>
    if isPySpaceB c then
      if prevSpace then collapseWSAux true rest
      else 32 :: collapseWSAux true rest
    else c :: collapseWSAux false rest

/-- `re.sub(r"\s+", ' ', s)`: replace every maximal whitespace run by one space. -/
def collapseWS (s : List Nat) : List Nat := collapseWSAux false s

/-- Worker for `pyReplace`, structurally recursive on a fuel that starts at the
string length; each step consumes at least one character, so the fuel never
runs out on the initial call. -/
def pyReplaceF (pat rep : List Nat) : Nat → List Nat → List Nat
  | _, [] => []
  | 0, s => s
  | fuel + 1, c :: rest =>
    if pat ≠ [] ∧ pat.isPrefixOf (c :: rest) = true then
      rep ++ pyReplaceF pat rep fuel (rest.drop (pat.length - 1))
    else
      c :: pyReplaceF pat rep fuel rest

/-- `str.replace(pat, rep)`: replace non-overlapping occurrences left to right. -/
def pyReplace (pat rep : List Nat) (s : List Nat) : List Nat :=
  pyReplaceF pat rep s.length s

/-- `CityStandardizer.normalize_city_name`: lowercase and strip, remove characters
outside `\w\s\-'`, collapse whitespace runs, run the two (dead, see C3)
abbreviation replacements, and strip again. -/
def normalize_city_name (city_name : List Nat) : List Nat :=
  if city_name = [] then []
  else
    let n1 := pyStrip (pyLower city_name)
    let n2 := n1.filter keepCharB
    let n3 := collapseWS n2
    let n4 := pyReplace (S "st.") (S "saint") n3
    let n5 := pyReplace (S "mt.") (S "mount") n4
    pyStrip n5

/-- Association-list lookup mirroring Python `dict[key]` / `key in dict`. -/
def tblLookup : List (List Nat × List Nat) → List Nat → Option (List Nat)
  | [], _ => none
  | (k, v) :: rest, key => if k = key then some v else tblLookup rest key

/-- Association-list lookup for the list-valued `alternative_airports` table. -/
def altLookup : List (List Nat × List (List Nat)) → List Nat → Option (List (List Nat))
  | [], _ => none
  | (k, v) :: rest, key => if k = key then some v else altLookup rest key

/-! ### difflib.SequenceMatcher (no junk, exact rational arithmetic) -/

/-- Result of `find_longest_match`: a triple `(i, j, size)`. -/
structure MatchBlock where
  besti : Nat
  bestj : Nat
  bestsize : Nat
deriving DecidableEq

/-- `j2len.get(j, 0)` on the dictionary carried by the matching loop. -/
def j2lenGet (d : List (Nat × Nat)) (j : Nat) : Nat :=
  match d with
  | [] => 0
  | (k, v) :: rest => if k = j then v else j2lenGet rest j

/-- The indices `j` with `blo ≤ j < bhi` and `b[j] = x`, ascending: the values
produced by `b2j.get(a[i], [])` restricted to the window, in loop order. -/
def matchIndices (b : List Nat) (blo bhi x : Nat) : List Nat :=
  (List.range' blo (bhi - blo)).filter (fun j => b.getD j 0 == x)

/-- Inner `for j` loop of `find_longest_match`: builds `newj2len` and updates the
best block (strict `k > bestsize`, so earliest `i`, then earliest `j`, wins). -/
def flmJ (i : Nat) (j2len : List (Nat × Nat)) :
    List Nat → List (Nat × Nat) → MatchBlock → List (Nat × Nat) × MatchBlock
  | [], newj2len, best => (newj2len, best)
  | j :: js, newj2len, best =>
    let k := (if j = 0 then 0 else j2lenGet j2len (j - 1)) + 1
    let best2 := if best.bestsize < k then ⟨i + 1 - k, j + 1 - k, k⟩ else best
    flmJ i j2len js ((j, k) :: newj2len) best2

/-- Outer `for i` loop of `find_longest_match`. -/
def flmI (a b : List Nat) (blo bhi : Nat) :
    List Nat → List (Nat × Nat) → MatchBlock → MatchBlock
  | [], _, best => best
  | i :: rest, j2len, best =>
    let step := flmJ i j2len (matchIndices b blo bhi (a.getD i 0)) [] best
    flmI a b blo bhi rest step.1 step.2

/-- Backward extension loop of `find_longest_match` (junk set empty, so the
`isbjunk` guards are vacuous).  Each iteration decrements `besti`, so a fuel of
`besti` covers every iteration the loop can make. -/
def extBackF (a b : List Nat) (alo blo : Nat) : Nat → MatchBlock → MatchBlock
  | 0, m => m
  | fuel + 1, m =>
    if alo < m.besti ∧ blo < m.bestj ∧
        a.getD (m.besti - 1) 0 = b.getD (m.bestj - 1) 0 then
      extBackF a b alo blo fuel ⟨m.besti - 1, m.bestj - 1, m.bestsize + 1⟩
    else m

/-- The backward extension loop run to completion. -/
def extBack (a b : List Nat) (alo blo : Nat) (m : MatchBlock) : MatchBlock :=
  extBackF a b alo blo m.besti m

/-- Forward extension loop of `find_longest_match`.  Each iteration increments
`bestsize` while `besti + bestsize < ahi` holds, so a fuel of
`ahi - (besti + bestsize)` covers every iteration. -/
def extFwdF (a b : List Nat) (ahi bhi : Nat) : Nat → MatchBlock → MatchBlock
  | 0, m => m
  | fuel + 1, m =>
    if m.besti + m.bestsize < ahi ∧ m.bestj + m.bestsize < bhi ∧
        a.getD (m.besti + m.bestsize) 0 = b.getD (m.bestj + m.bestsize) 0 then
      extFwdF a b ahi bhi fuel ⟨m.besti, m.bestj, m.bestsize + 1⟩
    else m

/-- The forward extension loop run to completion. -/
def extFwd (a b : List Nat) (ahi bhi : Nat) (m : MatchBlock) : MatchBlock :=
  extFwdF a b ahi bhi (ahi - (m.besti + m.bestsize)) m

/-- `SequenceMatcher.find_longest_match(alo, ahi, blo, bhi)` with `a`, `b` the two
sequences and an empty junk set. -/
def find_longest_match (a b : List Nat) (alo ahi blo bhi : Nat) : MatchBlock :=
  extFwd a b ahi bhi
    (extBack a b alo blo
      (flmI a b blo bhi (List.range' alo (ahi - alo)) [] ⟨alo, blo, 0⟩))

/-- Total size of the matching blocks of `get_matching_blocks` restricted to a
window: the recursive longest-match decomposition.  `fuel` bounds the recursion
depth; `ratioQ` supplies `a.length + b.length + 1`, which exceeds the actual
depth, so the fuel never runs out on the calls made here. -/
def totalMatched (a b : List Nat) : Nat → Nat → Nat → Nat → Nat → Nat
  | 0, _, _, _, _ => 0
  | fuel + 1, alo, ahi, blo, bhi =>
    let m := find_longest_match a b alo ahi blo bhi
    if m.bestsize = 0 then 0
    else
      m.bestsize
        + (if alo < m.besti ∧ blo < m.bestj then
            totalMatched a b fuel alo m.besti blo m.bestj else 0)
        + (if m.besti + m.bestsize < ahi ∧ m.bestj + m.bestsize < bhi then
            totalMatched a b fuel (m.besti + m.bestsize) ahi (m.bestj + m.bestsize) bhi
           else 0)

/-- `SequenceMatcher(None, a, b).ratio()` as an exact fraction
`(numerator, denominator)`: `2*M / (len(a)+len(b))`, and `1.0` (as `(1,1)`)
when both sequences are empty.  The denominator is always positive. -/
def ratioPair (a b : List Nat) : Nat × Nat :=
  let T := a.length + b.length
  if T = 0 then (1, 1)
  else (2 * totalMatched a b (T + 1) 0 a.length 0 b.length, T)

/-- Exact comparison `p.1/p.2 ≤ r.1/r.2` of fractions with positive
denominators, by cross multiplication. -/
def fracLe (p r : Nat × Nat) : Bool := decide (p.1 * r.2 ≤ r.1 * p.2)

/-- Exact comparison `p.1/p.2 < r.1/r.2`. -/
def fracLt (p r : Nat × Nat) : Bool := decide (p.1 * r.2 < r.1 * p.2)

/-- Exact equality `p.1/p.2 = r.1/r.2`. -/
def fracEq (p r : Nat × Nat) : Bool := decide (p.1 * r.2 = r.1 * p.2)

/-- Python string comparison `x > y` (lexicographic by code point). -/
def pyStrGt : List Nat → List Nat → Bool
  | _ :: _, [] => true
  | [], _ => false
  | a :: as, b :: bs => if b < a then true else if a < b then false else pyStrGt as bs

/-- The candidates passing the cutoff, in table order.  `get_close_matches`
prefilters with `real_quick_ratio`/`quick_ratio`; both are upper bounds of
`ratio` (that is their documented purpose), so the surviving set is exactly
the set with `ratio() >= cutoff`. -/
def closeCandidates (word : List Nat) (poss : List (List Nat)) (cutoff : Nat × Nat) :
    List (List Nat) :=
  poss.filter (fun x => fracLe cutoff (ratioPair x word))

/-- `heapq.nlargest` orders the pairs `(ratio, string)` lexicographically, so
ties on the ratio are broken by the larger string. -/
def betterCand (word : List Nat) (x y : List Nat) : Bool :=
  if fracLt (ratioPair y word) (ratioPair x word) then true
  else if fracEq (ratioPair x word) (ratioPair y word) then pyStrGt x y
  else false

/-- Pick the maximum candidate under the `(ratio, string)` order. -/
def pickBest (word : List Nat) : List (List Nat) → Option (List Nat)
  | [] => none
  | c :: cs => some (cs.foldl (fun bst x => if betterCand word x bst then x else bst) c)

/-- `difflib.get_close_matches(word, possibilities, n=1, cutoff)[0]`, or `none`
when no candidate reaches the cutoff. -/
def get_close_match (word : List Nat) (poss : List (List Nat)) (cutoff : Nat × Nat) :
    Option (List Nat) :=
  pickBest word (closeCandidates word poss cutoff)

/-! ### CityStandardizer: the fixed tables -/

/-- The `city_to_airport` dictionary of `CityStandardizer.__init__`. -/
def cityToAirportTable : List (List Nat × List Nat) := [
  ((S "durban"), S "DUR"),
  ((S "harare"), S "HRE"),
  ((S "cape town"), S "CPT"),
  ((S "capetown"), S "CPT"),
  ((S "johannesburg"), S "JNB"),
  ((S "joburg"), S "JNB"),
  ((S "jburg"), S "JNB"),
  ((S "cairo"), S "CAI"),
  ((S "lagos"), S "LOS"),
  ((S "nairobi"), S "NBO"),
  ((S "casablanca"), S "CMN"),
  ((S "addis ababa"), S "ADD"),
  ((S "dar es salaam"), S "DAR"),
  ((S "accra"), S "ACC"),
  ((S "tunis"), S "TUN"),
  ((S "algiers"), S "ALG"),
  ((S "kigali"), S "KGL"),
  ((S "lusaka"), S "LUN"),
  ((S "maputo"), S "MPM"),
  ((S "windhoek"), S "WDH"),
  ((S "gaborone"), S "GBE"),
  ((S "maseru"), S "MSU"),
  ((S "mbabane"), S "MTS"),
  ((S "blantyre"), S "BLZ"),
  ((S "lilongwe"), S "LLW"),
  ((S "london"), S "LHR"),
  ((S "paris"), S "CDG"),
  ((S "new york"), S "JFK"),
  ((S "newyork"), S "JFK"),
  ((S "nyc"), S "JFK"),
  ((S "los angeles"), S "LAX"),
  ((S "losangeles"), S "LAX"),
  ((S "chicago"), S "ORD"),
  ((S "miami"), S "MIA"),
  ((S "toronto"), S "YYZ"),
  ((S "vancouver"), S "YVR"),
  ((S "sydney"), S "SYD"),
  ((S "melbourne"), S "MEL"),
  ((S "tokyo"), S "NRT"),
  ((S "beijing"), S "PEK"),
  ((S "shanghai"), S "PVG"),
  ((S "hong kong"), S "HKG"),
  ((S "hongkong"), S "HKG"),
  ((S "singapore"), S "SIN"),
  ((S "bangkok"), S "BKK"),
  ((S "mumbai"), S "BOM"),
  ((S "delhi"), S "DEL"),
  ((S "new delhi"), S "DEL"),
  ((S "newdelhi"), S "DEL"),
  ((S "dubai"), S "DXB"),
  ((S "doha"), S "DOH"),
  ((S "istanbul"), S "IST"),
  ((S "moscow"), S "SVO"),
  ((S "amsterdam"), S "AMS"),
  ((S "frankfurt"), S "FRA"),
  ((S "zurich"), S "ZUR"),
  ((S "madrid"), S "MAD"),
  ((S "barcelona"), S "BCN"),
  ((S "rome"), S "FCO"),
  ((S "milan"), S "MXP"),
  ((S "vienna"), S "VIE"),
  ((S "brussels"), S "BRU"),
  ((S "stockholm"), S "ARN"),
  ((S "oslo"), S "OSL"),
  ((S "copenhagen"), S "CPH"),
  ((S "helsinki"), S "HEL"),
  ((S "athens"), S "ATH"),
  ((S "lisbon"), S "LIS"),
  ((S "dublin"), S "DUB"),
  ((S "edinburgh"), S "EDI"),
  ((S "manchester"), S "MAN"),
  ((S "birmingham"), S "BHX"),
  ((S "glasgow"), S "GLA"),
  ((S "atlanta"), S "ATL"),
  ((S "boston"), S "BOS"),
  ((S "dallas"), S "DFW"),
  ((S "denver"), S "DEN"),
  ((S "detroit"), S "DTW"),
  ((S "houston"), S "IAH"),
  ((S "las vegas"), S "LAS"),
  ((S "lasvegas"), S "LAS"),
  ((S "vegas"), S "LAS"),
  ((S "minneapolis"), S "MSP"),
  ((S "orlando"), S "MCO"),
  ((S "philadelphia"), S "PHL"),
  ((S "phoenix"), S "PHX"),
  ((S "portland"), S "PDX"),
  ((S "san francisco"), S "SFO"),
  ((S "sanfrancisco"), S "SFO"),
  ((S "seattle"), S "SEA"),
  ((S "washington"), S "DCA"),
  ((S "washington dc"), S "DCA"),
  ((S "washingtondc"), S "DCA"),
  ((S "jo" ++ apos :: S "burg"), S "JNB"),
  ((S "jo-burg"), S "JNB"),
  ((S "new york city"), S "JFK"),
  ((S "la"), S "LAX"),
  ((S "sf"), S "SFO"),
  ((S "dc"), S "DCA")
]

/-- The `alternative_airports` dictionary of `CityStandardizer.__init__`. -/
def alternativeAirportsTable : List (List Nat × List (List Nat)) := [
  ((S "london"), [S "LHR", S "LGW", S "STN", S "LTN"]),
  ((S "new york"), [S "JFK", S "LGA", S "EWR"]),
  ((S "paris"), [S "CDG", S "ORY"]),
  ((S "tokyo"), [S "NRT", S "HND"]),
  ((S "milan"), [S "MXP", S "LIN"]),
  ((S "rome"), [S "FCO", S "CIA"]),
  ((S "chicago"), [S "ORD", S "MDW"]),
  ((S "houston"), [S "IAH", S "HOU"]),
  ((S "washington"), [S "DCA", S "IAD", S "BWI"])
]

/-- The `country_to_airport` dictionary of `CityStandardizer.__init__`. -/
def countryToAirportTable : List (List Nat × List Nat) := [
  ((S "ethiopia"), S "ADD"),
  ((S "south africa"), S "JNB"),
  ((S "southafrica"), S "JNB"),
  ((S "kenya"), S "NBO"),
  ((S "nigeria"), S "LOS"),
  ((S "egypt"), S "CAI"),
  ((S "morocco"), S "CMN"),
  ((S "ghana"), S "ACC"),
  ((S "tanzania"), S "DAR"),
  ((S "zimbabwe"), S "HRE"),
  ((S "zambia"), S "LUN"),
  ((S "botswana"), S "GBE"),
  ((S "namibia"), S "WDH"),
  ((S "uganda"), S "EBB"),
  ((S "rwanda"), S "KGL"),
  ((S "senegal"), S "DKR"),
  ((S "ivory coast"), S "ABJ"),
  ((S "ivorycoast"), S "ABJ"),
  ((S "cote d" ++ apos :: S "ivoire"), S "ABJ"),
  ((S "cotedivoire"), S "ABJ"),
  ((S "tunisia"), S "TUN"),
  ((S "algeria"), S "ALG"),
  ((S "libya"), S "TIP"),
  ((S "sudan"), S "KRT"),
  ((S "madagascar"), S "TNR"),
  ((S "mauritius"), S "MRU"),
  ((S "seychelles"), S "SEZ"),
  ((S "united states"), S "JFK"),
  ((S "unitedstates"), S "JFK"),
  ((S "usa"), S "JFK"),
  ((S "america"), S "JFK"),
  ((S "united kingdom"), S "LHR"),
  ((S "unitedkingdom"), S "LHR"),
  ((S "uk"), S "LHR"),
  ((S "britain"), S "LHR"),
  ((S "england"), S "LHR"),
  ((S "france"), S "CDG"),
  ((S "germany"), S "FRA"),
  ((S "italy"), S "FCO"),
  ((S "spain"), S "MAD"),
  ((S "netherlands"), S "AMS"),
  ((S "switzerland"), S "ZUR"),
  ((S "austria"), S "VIE"),
  ((S "belgium"), S "BRU"),
  ((S "sweden"), S "ARN"),
  ((S "norway"), S "OSL"),
  ((S "denmark"), S "CPH"),
  ((S "finland"), S "HEL"),
  ((S "greece"), S "ATH"),
  ((S "portugal"), S "LIS"),
  ((S "ireland"), S "DUB"),
  ((S "russia"), S "SVO"),
  ((S "turkey"), S "IST"),
  ((S "china"), S "PEK"),
  ((S "japan"), S "NRT"),
  ((S "india"), S "DEL"),
  ((S "australia"), S "SYD"),
  ((S "canada"), S "YYZ"),
  ((S "brazil"), S "GRU"),
  ((S "argentina"), S "EZE"),
  ((S "mexico"), S "MEX"),
  ((S "thailand"), S "BKK"),
  ((S "singapore"), S "SIN"),
  ((S "malaysia"), S "KUL"),
  ((S "indonesia"), S "CGK"),
  ((S "philippines"), S "MNL"),
  ((S "vietnam"), S "SGN"),
  ((S "south korea"), S "ICN"),
  ((S "southkorea"), S "ICN"),
  ((S "uae"), S "DXB"),
  ((S "united arab emirates"), S "DXB"),
  ((S "unitedarabemirates"), S "DXB"),
  ((S "qatar"), S "DOH"),
  ((S "saudi arabia"), S "RUH"),
  ((S "saudiarabia"), S "RUH"),
  ((S "israel"), S "TLV"),
  ((S "iran"), S "IKA"),
  ((S "pakistan"), S "KHI"),
  ((S "bangladesh"), S "DAC"),
  ((S "sri lanka"), S "CMB"),
  ((S "srilanka"), S "CMB")
]

/-- The `city_aliases` dictionary of `CityStandardizer.__init__`. -/
def cityAliasesTable : List (List Nat × List Nat) := [
  ((S "jo" ++ apos :: S "burg"), S "johannesburg"),
  ((S "joburg"), S "johannesburg"),
  ((S "jburg"), S "johannesburg"),
  ((S "cape town"), S "cape town"),
  ((S "capetown"), S "cape town"),
  ((S "nyc"), S "new york"),
  ((S "new york city"), S "new york"),
  ((S "newyork"), S "new york"),
  ((S "la"), S "los angeles"),
  ((S "losangeles"), S "los angeles"),
  ((S "sf"), S "san francisco"),
  ((S "sanfrancisco"), S "san francisco"),
  ((S "vegas"), S "las vegas"),
  ((S "lasvegas"), S "las vegas"),
  ((S "dc"), S "washington"),
  ((S "washington dc"), S "washington"),
  ((S "washingtondc"), S "washington"),
  ((S "new delhi"), S "delhi"),
  ((S "newdelhi"), S "delhi"),
  ((S "hong kong"), S "hong kong"),
  ((S "hongkong"), S "hong kong")
]

/-- The state of a `CityStandardizer` instance: the four tables set up by
`__init__`. -/
structure CityStandardizer where
  city_to_airport : List (List Nat × List Nat)
  alternative_airports : List (List Nat × List (List Nat))
  country_to_airport : List (List Nat × List Nat)
  city_aliases : List (List Nat × List Nat)

/-- `CityStandardizer()`: the instance built by `__init__` (also the module-level
`city_standardizer` singleton). -/
def defaultStandardizer : CityStandardizer :=
  ⟨cityToAirportTable, alternativeAirportsTable, countryToAirportTable, cityAliasesTable⟩

/-- `all_locations` as assembled inside `get_airport_code`: city keys, then
country keys, then alias keys. -/
def CityStandardizer.all_locations (self : CityStandardizer) : List (List Nat) :=
  self.city_to_airport.map Prod.fst ++ self.country_to_airport.map Prod.fst ++
    self.city_aliases.map Prod.fst

/-- The `city → country → alias→city` lookup chain.  It is run once on the
normalized input (steps 3–5 of the resolver) and, on a fuzzy match, once more
on the matched key; in both uses a hit returns, a miss falls through. -/
def CityStandardizer.lookupChain (self : CityStandardizer) (key : List Nat) :
    Option (List Nat) :=
  match tblLookup self.city_to_airport key with
  | some code => some code
  | none =>
    match tblLookup self.country_to_airport key with
    | some code => some code
    | none =>
      match tblLookup self.city_aliases key with
      | some canonical_name => tblLookup self.city_to_airport canonical_name
      | none => none

/-- `CityStandardizer.get_airport_code`: normalize, run the exact lookup chain,
then fuzzy recovery with `get_close_matches(..., n=1, cutoff=0.8)` resolved
through the same chain. -/
def CityStandardizer.get_airport_code (self : CityStandardizer) (city_name : List Nat) :
    Option (List Nat) :=
  if city_name = [] then none
  else
    let normalized := normalize_city_name city_name
    match self.lookupChain normalized with
    | some code => some code
    | none =>
      match get_close_match normalized self.all_locations (4, 5) with
      | none => none
      | some m => self.lookupChain m

/-- `CityStandardizer.is_valid_airport_code`: `bool(re.match(r'^[A-Z]{3}$', code.upper()))`.
(The stripped inputs passed here contain no trailing newline, so the `$`-newline
subtlety of `re` cannot fire.) -/
def CityStandardizer.is_valid_airport_code (_self : CityStandardizer) (code : List Nat) :
    Bool :=
  if code = [] then false
  else
    match pyUpper code with
    | [c1, c2, c3] => isUpperAlphaB c1 && isUpperAlphaB c2 && isUpperAlphaB c3
    | _ => false

/-- `CityStandardizer.get_standardized_city_info`:
`(normalized_name, airport_code, canonical_name)`. -/
def CityStandardizer.get_standardized_city_info (self : CityStandardizer)
    (city_name : List Nat) :
    Option (List Nat) × Option (List Nat) × Option (List Nat) :=
  if city_name = [] then (none, none, none)
  else
    let normalized := normalize_city_name city_name
    let airport_code := self.get_airport_code city_name
    let canonical_name :=
      match tblLookup self.city_aliases normalized with
      | some c => c
      | none => normalized
    (some normalized, airport_code, some canonical_name)

/-- `CityStandardizer.get_alternative_airports`. -/
def CityStandardizer.get_alternative_airports (self : CityStandardizer)
    (city_name : List Nat) : List (List Nat) :=
  let normalized := normalize_city_name city_name
  let canonical_name :=
    match tblLookup self.city_aliases normalized with
    | some c => c
    | none => normalized
  match altLookup self.alternative_airports canonical_name with
  | some l => l
  | none => []

/-- The record returned by `standardize_location_input` (the spec's
LocationResolution; `is_airport_code` is the spec's `is_already_code`). -/
structure LocationResolution where
  original : List Nat
  normalized : List Nat
  airport_code : Option (List Nat)
  canonical_name : List Nat
  is_airport_code : Bool
  alternatives : List (List Nat)
deriving DecidableEq

/-- `CityStandardizer.standardize_location_input`: the resolver's public entry
point (the spec's `resolve`). -/
def CityStandardizer.standardize_location_input (self : CityStandardizer)
    (location : List Nat) : LocationResolution :=
  if location = [] then ⟨[], [], none, [], false, []⟩
  else
    let original := pyStrip location
    if self.is_valid_airport_code original then
      ⟨original, pyUpper original, some (pyUpper original), pyUpper original, true, []⟩
    else
      let info := self.get_standardized_city_info original
      let normalized := info.1.getD []
      let airport_code := info.2.1
      let canonical_name := info.2.2.getD []
      let alternatives :=
        if airport_code.isSome then self.get_alternative_airports original else []
      ⟨original, normalized, airport_code, canonical_name, false, alternatives⟩

/-- `resolve` of the spec, on the default instance (as the tools use it). -/
def resolveLoc (location : List Nat) : LocationResolution :=
  defaultStandardizer.standardize_location_input location

/-- `get_airport_code` on the default instance. -/
def getCode (city_name : List Nat) : Option (List Nat) :=
  defaultStandardizer.get_airport_code city_name

/-! ### Conversation Orchestrator (`agents/agent.py`) -/

/-- A ToolCall as emitted by the decision oracle (`t['id']`, `t['name']`,
`t['args']`; the argument mapping is opaque to the orchestrator). -/
structure ToolCall where
  id : String
  name : String
  args : List (String × String)
deriving DecidableEq

/-- A conversation message (`SystemMessage`, `HumanMessage`, AI message with
tool calls, `ToolMessage`). -/
inductive AgentMsg where
  | system (content : String)
  | human (content : String)
  | ai (content : String) (tool_calls : List ToolCall)
  | tool (tool_call_id : String) (name : String) (content : String)
deriving DecidableEq

/-- The fixed registry of tool names: `TOOLS = [flights_finder, hotels_finder]`,
keyed by tool name in `self._tools`. -/
def toolRegistry : List String := ["flights_finder", "hotels_finder"]

/-- The retry content produced for an unregistered tool name. -/
def badToolContent : String := "bad tool name, retry"

/-- The decision oracle (`self._tools_llm.invoke`): from the visible messages
(with the system prompt prepended) to an AI message's content and tool calls.
The real implementation is an external LLM call; here it is an arbitrary
function, instantiated with stubs. -/
def Oracle : Type := List AgentMsg → String × List ToolCall

/-- Execution of one registered tool, composed with the `json.dumps`/`str`
serialization of its result: opaque to the orchestrator, so modeled as a
function parameter. -/
def ToolExec : Type := String → List (String × String) → String

/-- The system prompt (`TOOLS_SYSTEM_PROMPT`; the long instruction text is
abridged here — it is opaque data to the loop and to every claim). -/
def toolsSystemPromptMsg : AgentMsg :=
  AgentMsg.system "You are a smart travel agency with advanced city name standardization capabilities."

/-- `Agent.call_tools_llm`: prepend the system prompt (not stored in history),
call the oracle, and wrap its answer as the AI message to append. -/
def call_tools_llm (oracle : Oracle) (messages : List AgentMsg) : AgentMsg :=
  let r := oracle (toolsSystemPromptMsg :: messages)
  AgentMsg.ai r.1 r.2

/-- The tool calls of a message (`result.tool_calls`; only AI messages carry
them). -/
def msgToolCalls : AgentMsg → List ToolCall
  | AgentMsg.ai _ tool_calls => tool_calls
  | _ => []

/-- The text content of a message. -/
def msgContent : AgentMsg → String
  | AgentMsg.system c => c
  | AgentMsg.human c => c
  | AgentMsg.ai c _ => c
  | AgentMsg.tool _ _ c => c

/-- The `tool_call_id` of a message (`none` for non-tool messages). -/
def msgToolCallId : AgentMsg → Option String
  | AgentMsg.tool tool_call_id _ _ => some tool_call_id
  | _ => none

/-- Whether a message is a ToolResult message. -/
def isToolMsg : AgentMsg → Bool
  | AgentMsg.tool _ _ _ => true
  | _ => false

/-- The two targets of the conditional edge out of `call_tools_llm`. -/
inductive NextNode where
  | more_tools
  | endNode
deriving DecidableEq

/-- `Agent.exists_action`: inspect the last message's tool calls. -/
def exists_action (messages : List AgentMsg) : NextNode :=
  match messages.getLast? with
  | some (AgentMsg.ai _ tool_calls) =>
    if tool_calls.length = 0 then NextNode.endNode else NextNode.more_tools
  | _ => NextNode.endNode

/-- `Agent.invoke_tools`: one ToolMessage per ToolCall, in emission order; an
unregistered name yields the retry content, a registered one the serialized
tool result. -/
def invoke_tools (toolExec : ToolExec) : List ToolCall → List AgentMsg
  | [] => []
  | t :: rest =>
    (if t.name ∈ toolRegistry then AgentMsg.tool t.id t.name (toolExec t.name t.args)
     else AgentMsg.tool t.id t.name badToolContent) :: invoke_tools toolExec rest

/-- The compiled graph run from a message list: `call_tools_llm`, then either
END (returning the final answer and the history) or `invoke_tools` and back.
`fuel` bounds the number of rounds; `none` means the loop had not finished
within `fuel` rounds. -/
def runAgent (oracle : Oracle) (toolExec : ToolExec) :
    Nat → List AgentMsg → Option (String × List AgentMsg)
  | 0, _ => none
  | fuel + 1, messages =>
    let m := call_tools_llm oracle messages
    let messages1 := messages ++ [m]
    match exists_action messages1 with
    | NextNode.endNode => some (msgContent m, messages1)
    | NextNode.more_tools =>
      runAgent oracle toolExec fuel (messages1 ++ invoke_tools toolExec (msgToolCalls m))

/-- `process(user_text)`: run the graph on a history seeded with the user
message. -/
def process (oracle : Oracle) (toolExec : ToolExec) (fuel : Nat) (user_text : String) :
    Option (String × List AgentMsg) :=
  runAgent oracle toolExec fuel [AgentMsg.human user_text]

/-- Stub oracle for the unknown-tool scenario: first decision emits one
ToolCall naming the unregistered `weather_finder`; any decision that can see a
ToolResult in history emits zero ToolCalls. -/
def unknownToolStub : Oracle := fun messages =>
  if messages.any isToolMsg then ("final answer", [])
  else ("", [⟨"call_1", "weather_finder", []⟩])

/-! ### Flight search tool (`agents/tools/flights_finder.py`) -/

/-- Decimal rendering of a number, as Python `str`/f-strings produce it. -/
def strOfNat (n : Nat) : List Nat := S (Nat.repr n)

/-- `str.split(sep)` for a one-character separator: no run collapsing, empty
chunks preserved. -/
def pySplitOn (sep : Nat) : List Nat → List (List Nat)
  | [] => [[]]
  | c :: rest =>
    if c = sep then [] :: pySplitOn sep rest
    else
      match pySplitOn sep rest with
      | [] => [[c]]
      | g :: gs => (c :: g) :: gs

/-- A one- or two-digit `strptime` field (`%H` caps at 23, `%M` at 59). -/
def parseTimeField (maxv : Nat) : List Nat → Option Nat
  | [d] => if isAsciiDigitB d then some (d - 48) else none
  | [d1, d2] =>
    if isAsciiDigitB d1 ∧ isAsciiDigitB d2 ∧ (d1 - 48) * 10 + (d2 - 48) ≤ maxv then
      some ((d1 - 48) * 10 + (d2 - 48))
    else none
  | _ => none

/-- `datetime.strptime(time_24, '%H:%M')`, as hour and minute. -/
def parseHM (s : List Nat) : Option (Nat × Nat) :=
  match pySplitOn 58 s with
  | [hs, ms] =>
    match parseTimeField 23 hs, parseTimeField 59 ms with
    | some h, some m => some (h, m)
    | _, _ => none
  | _ => none

/-- Two-digit zero-padded rendering. -/
def pad2 (n : Nat) : List Nat := if n < 10 then [48, 48 + n] else strOfNat n

/-- `format_time_12hour`: `strftime('%I:%M %p').lstrip('0')` on a parsed
`HH:MM`, or the input unchanged when parsing fails. -/
def format_time_12hour (time_24 : List Nat) : List Nat :=
  match parseHM time_24 with
  | none => time_24
  | some (h, m) =>
    let h12 := if h % 12 = 0 then 12 else h % 12
    let ampm := if h < 12 then S "AM" else S "PM"
    (pad2 h12 ++ 58 :: pad2 m ++ 32 :: ampm).dropWhile (fun c => c == 48)

/-- An airport dictionary inside a SerpAPI flight segment (`id`, `name`, `time`
keys, each possibly absent). -/
structure ApiAirportInfo where
  id : Option (List Nat)
  name : Option (List Nat)
  time : Option (List Nat)
deriving DecidableEq

/-- `{}`: the default for a missing airport dictionary. -/
def emptyAirportInfo : ApiAirportInfo := ⟨none, none, none⟩

/-- One flight segment of a SerpAPI flight option. -/
structure ApiFlightSegment where
  departure_airport : Option ApiAirportInfo
  arrival_airport : Option ApiAirportInfo
  airline : Option (List Nat)
  flight_number : Option (List Nat)
  airplane : Option (List Nat)
  duration : Option Nat
deriving DecidableEq

/-- One SerpAPI flight option (`best_flights` / `other_flights` entry). -/
structure ApiFlightOption where
  flights : List ApiFlightSegment
  total_duration : Option Nat
  layovers : List Unit
  price : Option Int
deriving DecidableEq

/-- An airport reference in the transformed output. -/
structure AirportRef where
  id : List Nat
  name : List Nat
deriving DecidableEq

/-- A transformed flight segment. -/
structure FlightSegment where
  departure_airport : AirportRef
  arrival_airport : AirportRef
  airline : List Nat
  flight_number : List Nat
  departure_time : List Nat
  arrival_time : List Nat
  duration : List Nat
  aircraft : List Nat
  stops : Nat
deriving DecidableEq

/-- A transformed flight record (`price = none` stands for the string `N/A`
default of `.get('price', 'N/A')`). -/
structure FlightRecord where
  flights : List FlightSegment
  price : Option Int
  type : List Nat
deriving DecidableEq

/-- The display-time computation applied to a segment time: keep `Unknown` or a
space-free time as is, otherwise 12-hour-format the part after the first
space. -/
def segDisplayTime (t : Option (List Nat)) : List Nat :=
  let t0 := t.getD (S "Unknown")
  if t0 = S "Unknown" then t0
  else if 32 ∈ t0 then format_time_12hour ((pySplitOn 32 t0).getD 1 [])
  else t0

/-- `transform_serpapi_flights`.  An option without segments is skipped
(`if not flights: continue`); every dictionary access in the body is defaulted
with `.get`, so the per-option `except` clause is unreachable in this model. -/
def transform_serpapi_flights (serpapi_flights : List ApiFlightOption) :
    List FlightRecord :=
  serpapi_flights.filterMap (fun flight_option =>
    match flight_option.flights with
    | [] => none
    | main_flight :: restSegs =>
      let departure_airport := main_flight.departure_airport.getD emptyAirportInfo
      let lastSeg := (main_flight :: restSegs).getLast (List.cons_ne_nil _ _)
      let arrival_airport := lastSeg.arrival_airport.getD emptyAirportInfo
      let departure_time := segDisplayTime departure_airport.time
      let arrival_time := segDisplayTime arrival_airport.time
      let total_duration :=
        match flight_option.total_duration with
        | some d => d
        | none => main_flight.duration.getD 0
      let duration_str :=
        if total_duration ≠ 0 then strOfNat total_duration ++ S " minutes"
        else S "Unknown"
      let stops := flight_option.layovers.length
      some
        { flights :=
            [{ departure_airport :=
                 ⟨departure_airport.id.getD (S "Unknown"),
                  departure_airport.name.getD (S "Unknown")⟩,
               arrival_airport :=
                 ⟨arrival_airport.id.getD (S "Unknown"),
                  arrival_airport.name.getD (S "Unknown")⟩,
               airline := main_flight.airline.getD (S "Unknown"),
               flight_number := main_flight.flight_number.getD (S "Unknown"),
               departure_time := departure_time,
               arrival_time := arrival_time,
               duration := duration_str,
               aircraft := main_flight.airplane.getD (S "Unknown"),
               stops := stops }],
          price := flight_option.price,
          type :=
            if stops = 0 then S "Direct"
            else strOfNat stops ++ S " stop" ++ (if 1 < stops then S "s" else []) })

/-- `x or 'BBI'`-style fallback on the resolved codes in the sample data (the
codes are non-empty at that point, so the fallback never fires). -/
def orDefaultStr (s fallback : List Nat) : List Nat := if s = [] then fallback else s

/-- One sample flight record, shared shape of the two hard-coded sample lists. -/
def sampleFlightRecord (departure_airport arrival_airport : List Nat)
    (airline flight_number dep_t arr_t dur aircraft : List Nat) (price : Int) :
    FlightRecord :=
  { flights :=
      [{ departure_airport :=
           ⟨orDefaultStr departure_airport (S "BBI"), S "Biju Patnaik International Airport"⟩,
         arrival_airport :=
           ⟨orDefaultStr arrival_airport (S "VTZ"), S "Visakhapatnam Airport"⟩,
         airline := airline,
         flight_number := flight_number,
         departure_time := dep_t,
         arrival_time := arr_t,
         duration := dur,
         aircraft := aircraft,
         stops := 0 }],
    price := some price,
    type := S "Direct" }

/-- The five-record sample list returned when the provider reports no flights. -/
def sampleFlightsNoResults (departure_airport arrival_airport : List Nat) :
    List FlightRecord :=
  [sampleFlightRecord departure_airport arrival_airport (S "IndiGo") (S "6E 6214")
     (S "06:30 AM") (S "07:50 AM") (S "80 minutes") (S "Airbus A320neo") 168,
   sampleFlightRecord departure_airport arrival_airport (S "IndiGo") (S "6E 2189")
     (S "08:15 AM") (S "10:35 AM") (S "140 minutes") (S "Airbus A321neo") 170,
   sampleFlightRecord departure_airport arrival_airport (S "IndiGo") (S "6E 2304")
     (S "02:45 PM") (S "05:20 PM") (S "155 minutes") (S "Airbus A320") 170,
   sampleFlightRecord departure_airport arrival_airport (S "IndiGo") (S "6E 459")
     (S "07:30 PM") (S "10:05 PM") (S "155 minutes") (S "Airbus A320neo") 170,
   sampleFlightRecord departure_airport arrival_airport (S "Air India Express") (S "IX 1243")
     (S "11:20 AM") (S "01:55 PM") (S "155 minutes") (S "Boeing 737-800") 185]

/-- The three-record sample list returned when the provider call raises. -/
def sampleFlightsOnError (departure_airport arrival_airport : List Nat) :
    List FlightRecord :=
  [sampleFlightRecord departure_airport arrival_airport (S "IndiGo") (S "6E 6214")
     (S "06:30 AM") (S "07:50 AM") (S "80 minutes") (S "Airbus A320neo") 168,
   sampleFlightRecord departure_airport arrival_airport (S "IndiGo") (S "6E 2189")
     (S "08:15 AM") (S "10:35 AM") (S "140 minutes") (S "Airbus A321neo") 170,
   sampleFlightRecord departure_airport arrival_airport (S "Air India Express") (S "IX 1243")
     (S "11:20 AM") (S "01:55 PM") (S "155 minutes") (S "Boeing 737-800") 185]

/-- The tool input (`FlightsInput`).  `Optional[str]` locations are modeled as
lists, with `[]` standing for both `None` and the empty string (both falsy in
the source's emptiness checks). -/
structure FlightsInput where
  departure_location : List Nat
  arrival_location : List Nat
  outbound_date : List Nat
  return_date : List Nat
  adults : Nat
  children : Nat
  infants_in_seat : Nat
  infants_on_lap : Nat
deriving DecidableEq

/-- The behavior of the external search collaborator on one call: either a
response with `best_flights`/`other_flights`, or a raised exception. -/
inductive SerpFlightsResponse where
  | ok (best_flights other_flights : List ApiFlightOption)
  | exc
deriving DecidableEq

/-- The tool's return value: an error dictionary (`error` plus empty `flights`
list) or a plain result list. -/
inductive FlightsResult where
  | errorResult (error : List Nat) (flights : List FlightRecord)
  | results (flights : List FlightRecord)
deriving DecidableEq

/-- `flights_finder`, as a function of its input and of the collaborator's
behavior on the one `serpapi.search` call it makes.  The bare
`except Exception` arm catches every raised exception and substitutes the
hard-coded sample list. -/
def flights_finder (params : FlightsInput) (api : SerpFlightsResponse) :
    FlightsResult :=
  let standardizer := defaultStandardizer
  match standardizer.get_airport_code params.departure_location with
  | none =>
    FlightsResult.errorResult
      (S "Could not find airport code for departure location: " ++ params.departure_location)
      []
  | some departure_airport =>
    match standardizer.get_airport_code params.arrival_location with
    | none =>
      FlightsResult.errorResult
        (S "Could not find airport code for arrival location: " ++ params.arrival_location)
        []
    | some arrival_airport =>
      match api with
      | SerpFlightsResponse.exc =>
        FlightsResult.results (sampleFlightsOnError departure_airport arrival_airport)
      | SerpFlightsResponse.ok best_flights other_flights =>
        let all_flights := best_flights ++ other_flights
        let res :=
          if all_flights ≠ [] then transform_serpapi_flights all_flights else []
        FlightsResult.results
          (if res = [] then sampleFlightsNoResults departure_airport arrival_airport
           else res)

/-! ### Hotel search tool (`agents/tools/hotels_finder.py`) -/

/-- GPS coordinates of a hotel property (`latitude`/`longitude`; the decimal
bounds in the source are modeled as exact rationals). -/
structure GpsCoordinates where
  latitude : ℚ
  longitude : ℚ
deriving DecidableEq

/-- A `rate_per_night` dictionary. -/
structure RateInfo where
  lowest : List Nat
  currency : List Nat
deriving DecidableEq

/-- A SerpAPI hotel property, with the fields the tool reads.  `nearby_places`
is the list of the places' `name` values; an absent or empty
`gps_coordinates` dictionary is `none`. -/
structure ApiHotelProperty where
  nearby_places : List (List Nat)
  gps_coordinates : Option GpsCoordinates
  rate_per_night : Option RateInfo
  hotel_class : Option Int
  distance_from_search_location : Option (List Nat)
deriving DecidableEq

/-- Python substring containment (`sub in s`). -/
def isSubstr (pat : List Nat) : List Nat → Bool
  | [] => pat.isEmpty
  | c :: rest => pat.isPrefixOf (c :: rest) || isSubstr pat rest

/-- The city derived from one nearby place name: only airport-like names are
inspected, and only the three hard-coded cities are recognized. -/
def airportNameCity (place_name : List Nat) : Option (List Nat) :=
  if isSubstr (S "Airport") place_name = true ∨ isSubstr (S "International") place_name = true then
    if isSubstr (S "Mumbai") place_name = true ∨ isSubstr (S "Bombay") place_name = true then
      some (S "Mumbai")
    else if isSubstr (S "Delhi") place_name = true then some (S "Delhi")
    else if isSubstr (S "Bangalore") place_name = true ∨ isSubstr (S "Bengaluru") place_name = true then
      some (S "Bangalore")
    else none
  else none

/-- The `for place in nearby_places` loop: first recognized city wins. -/
def nearbyCity : List (List Nat) → Option (List Nat)
  | [] => none
  | nm :: rest =>
    match airportNameCity nm with
    | some c => some c
    | none => nearbyCity rest

/-- The GPS-range city detection. -/
def gpsCity (g : GpsCoordinates) : Option (List Nat) :=
  if 188 / 10 ≤ g.latitude ∧ g.latitude ≤ 193 / 10 ∧
      727 / 10 ≤ g.longitude ∧ g.longitude ≤ 731 / 10 then some (S "Mumbai")
  else if 284 / 10 ≤ g.latitude ∧ g.latitude ≤ 289 / 10 ∧
      768 / 10 ≤ g.longitude ∧ g.longitude ≤ 775 / 10 then some (S "Delhi")
  else if 128 / 10 ≤ g.latitude ∧ g.latitude ≤ 132 / 10 ∧
      774 / 10 ≤ g.longitude ∧ g.longitude ≤ 778 / 10 then some (S "Bangalore")
  else none

/-- `extract_location_info(hotel_data, search_location)`. -/
def extract_location_info (hotel_data : ApiHotelProperty) (search_location : List Nat) :
    List Nat :=
  match nearbyCity hotel_data.nearby_places with
  | some c => c
  | none =>
    match hotel_data.gps_coordinates with
    | some g =>
      match gpsCity g with
      | some c => c
      | none => search_location
    | none => search_location

/-- The `hotel_class` value after enrichment: the original number, or the
string `Not specified` when absent. -/
inductive ClassValue where
  | numV (n : Int)
  | notSpecified
deriving DecidableEq

/-- A property after the in-place enrichment loop (original fields plus the
filled `location`, `rate_per_night`, `hotel_class`,
`distance_from_search_location`). -/
structure EnrichedHotel where
  base : ApiHotelProperty
  location : List Nat
  rate_per_night : RateInfo
  hotel_class : ClassValue
  distance_from_search_location : List Nat
deriving DecidableEq

/-- The enrichment applied to each returned property (`params.location` is the
raw tool argument). -/
def enrichHotel (search_location : List Nat) (h : ApiHotelProperty) : EnrichedHotel :=
  { base := h,
    location := extract_location_info h search_location,
    rate_per_night := h.rate_per_night.getD ⟨S "Price not available", S "USD"⟩,
    hotel_class :=
      match h.hotel_class with
      | some n => ClassValue.numV n
      | none => ClassValue.notSpecified,
    distance_from_search_location :=
      h.distance_from_search_location.getD (S "Distance not available") }

/-- One hard-coded sample hotel. -/
structure SampleHotel where
  name : List Nat
  location : List Nat
  rate_per_night : RateInfo
  overall_rating : ℚ
  reviews : Nat
  amenities : List (List Nat)
  hotel_class : Nat
  distance_from_search_location : List Nat
  images : List (List Nat)
  link : List Nat
  type : List Nat
deriving DecidableEq

/-- The three-record sample hotel list (identical in the no-results branch and
the `SerpApiError` branch), around the raw `params.location`. -/
def sampleHotels (location : List Nat) : List SampleHotel :=
  [{ name := S "Grand Plaza Hotel",
     location := location ++ S " City Center",
     rate_per_night := ⟨S "$150", S "USD"⟩,
     overall_rating := 45 / 10,
     reviews := 1250,
     amenities := [S "Free WiFi", S "Pool", S "Gym", S "Restaurant"],
     hotel_class := 4,
     distance_from_search_location := S "0.5 miles from city center",
     images := [S "https://example.com/hotel1.jpg"],
     link := S "https://booking.example.com/grand-plaza-hotel",
     type := S "Hotel" },
   { name := S "City Center Inn",
     location := location ++ S " Downtown",
     rate_per_night := ⟨S "$89", S "USD"⟩,
     overall_rating := 42 / 10,
     reviews := 890,
     amenities := [S "Free WiFi", S "Breakfast", S "Business Center"],
     hotel_class := 3,
     distance_from_search_location := S "0.8 miles from city center",
     images := [S "https://example.com/hotel2.jpg"],
     link := S "https://booking.example.com/city-center-inn",
     type := S "Inn" },
   { name := S "Luxury Resort & Spa",
     location := location ++ S " Waterfront",
     rate_per_night := ⟨S "$280", S "USD"⟩,
     overall_rating := 48 / 10,
     reviews := 2100,
     amenities := [S "Spa", S "Pool", S "Fine Dining", S "Concierge"],
     hotel_class := 5,
     distance_from_search_location := S "2.1 miles from city center",
     images := [S "https://example.com/hotel3.jpg"],
     link := S "https://booking.example.com/luxury-resort-spa",
     type := S "Resort" }]

/-- The tool input (`HotelsInput`). -/
structure HotelsInput where
  location : List Nat
  check_in_date : List Nat
  check_out_date : List Nat
  sort_by : Nat
  adults : Nat
  children : Nat
  rooms : Nat
  hotel_class : Option (List Nat)
deriving DecidableEq

/-- The collaborator's behavior on the one `serpapi.search` call: a response
carrying `properties`, a raised `serpapi.SerpApiError`, or any other raised
exception. -/
inductive SerpHotelsResponse where
  | ok (properties : List ApiHotelProperty)
  | serpApiError
  | otherError
deriving DecidableEq

/-- An element of the returned hotel list: an enriched API property or a
hard-coded sample entry. -/
inductive HotelRecordOut where
  | fromApi (h : EnrichedHotel)
  | sample (h : SampleHotel)
deriving DecidableEq

deriving instance DecidableEq for Except

/-- `hotels_finder` as a function of its input and the collaborator's behavior.
`Except.error ()` models an exception escaping the tool: only
`serpapi.SerpApiError` is caught, so any other exception propagates.  The
`q` sent to the collaborator is `canonical_name or normalized or
params.location`; the response is supplied as `api`. -/
def hotels_finder (params : HotelsInput) (api : SerpHotelsResponse) :
    Except Unit (List HotelRecordOut) :=
  let standardizer := defaultStandardizer
  let location_info := standardizer.standardize_location_input params.location
  let _standardized_location :=
    if location_info.canonical_name ≠ [] then location_info.canonical_name
    else if location_info.normalized ≠ [] then location_info.normalized
    else params.location
  match api with
  | SerpHotelsResponse.otherError => Except.error ()
  | SerpHotelsResponse.serpApiError =>
    Except.ok ((sampleHotels params.location).map HotelRecordOut.sample)
  | SerpHotelsResponse.ok properties =>
    if properties ≠ [] then
      Except.ok
        (((properties.map (fun h => HotelRecordOut.fromApi (enrichHotel params.location h)))).take 5)
    else
      Except.ok (((sampleHotels params.location).map HotelRecordOut.sample).take 5)

/-! ### Concrete inputs and stubs used in witnesses and counterexamples -/

/-- A tool execution stub returning empty content. -/
def nullToolExec : ToolExec := fun _ _ => ""

/-- A stub oracle that always answers with zero ToolCalls. -/
def endStub : Oracle := fun _ => ("done", [])

/-- A stub oracle that always emits one registered ToolCall. -/
def oneCallStub : Oracle := fun _ => ("go", [⟨"c1", "flights_finder", []⟩])

/-- A flight query with two resolvable city names. -/
def flightsDurbanHarare : FlightsInput :=
  ⟨S "durban", S "harare", S "2024-06-22", [], 1, 0, 0, 0⟩

/-- A flight query whose departure location resolves to no airport code. -/
def flightsUnresolvable : FlightsInput :=
  ⟨S "xyzzyq", S "harare", S "2024-06-22", [], 1, 0, 0, 0⟩

/-- A hotel query whose location resolves to no airport code. -/
def hotelsUnresolvable : HotelsInput :=
  ⟨S "xyzzyq", S "2024-06-22", S "2024-06-28", 8, 1, 0, 1, none⟩

/-- A hotel property with every optional field absent. -/
def emptyHotelProperty : ApiHotelProperty := ⟨[], none, none, none, none⟩

/-! ### Helper lemmas -/

theorem isPySpaceB_pyLowerChar (c : Nat) : isPySpaceB (pyLowerChar c) = isPySpaceB c := by
  unfold pyLowerChar isPySpaceB
  split
  · next h => simp only [decide_eq_decide]; omega
  · rfl

theorem isPySpaceB_of_alpha {c : Nat} (h : isAsciiAlphaB c = true) : isPySpaceB c = false := by
  simp only [isAsciiAlphaB, decide_eq_true_eq] at h
  simp only [isPySpaceB, decide_eq_false_iff_not]
  omega

theorem isUpperAlphaB_pyUpperChar {c : Nat} (h : isAsciiAlphaB c = true) :
    isUpperAlphaB (pyUpperChar c) = true := by
  simp only [isAsciiAlphaB, decide_eq_true_eq] at h
  unfold pyUpperChar
  split <;> simp only [isUpperAlphaB, decide_eq_true_eq] <;> omega

theorem dropWhile_dropWhile (p : Nat → Bool) (l : List Nat) :
    List.dropWhile p (List.dropWhile p l) = List.dropWhile p l :=
  List.dropWhile_idempotent p l

theorem pyRStrip_cons (c : Nat) (t : List Nat) :
    pyRStrip (c :: t) =
      if isPySpaceB c = true ∧ List.dropWhile isPySpaceB t.reverse = [] then []
      else c :: pyRStrip t := by
  unfold pyRStrip
  rw [List.reverse_cons, List.dropWhile_append]
  by_cases hall : List.dropWhile isPySpaceB t.reverse = []
  · rw [hall]
    by_cases hc : isPySpaceB c = true <;>
      simp [List.dropWhile_cons, hc, hall]
  · have : (List.dropWhile isPySpaceB t.reverse).isEmpty = false := by
      simpa [List.isEmpty_iff] using hall
    rw [this]
    simp [hall, List.reverse_append]

theorem pyLStrip_pyRStrip (l : List Nat) : pyLStrip (pyRStrip l) = pyRStrip (pyLStrip l) := by
  induction l with
  | nil => rfl
  | cons c t ih =>
    by_cases hc : isPySpaceB c = true
    · by_cases hall : List.dropWhile isPySpaceB t.reverse = []
      · have htall : List.dropWhile isPySpaceB t = [] := by
          rw [List.dropWhile_eq_nil_iff] at hall ⊢
          intro x hx
          exact hall x (List.mem_reverse.mpr hx)
        rw [pyRStrip_cons, if_pos ⟨hc, hall⟩]
        show pyLStrip [] = pyRStrip (List.dropWhile isPySpaceB (c :: t))
        rw [List.dropWhile_cons, if_pos hc, htall]
        rfl
      · rw [pyRStrip_cons, if_neg (fun h => hall h.2)]
        show List.dropWhile isPySpaceB (c :: pyRStrip t) =
          pyRStrip (List.dropWhile isPySpaceB (c :: t))
        rw [List.dropWhile_cons, if_pos hc, List.dropWhile_cons, if_pos hc]
        exact ih
    · rw [pyRStrip_cons, if_neg (fun h => hc h.1)]
      show List.dropWhile isPySpaceB (c :: pyRStrip t) =
        pyRStrip (List.dropWhile isPySpaceB (c :: t))
      rw [List.dropWhile_cons, if_neg hc, List.dropWhile_cons, if_neg hc,
        pyRStrip_cons, if_neg (fun h => hc h.1)]

theorem pyRStrip_pyRStrip (l : List Nat) : pyRStrip (pyRStrip l) = pyRStrip l := by
  simp only [pyRStrip, List.reverse_reverse, dropWhile_dropWhile]

theorem pyLStrip_pyLStrip (l : List Nat) : pyLStrip (pyLStrip l) = pyLStrip l :=
  dropWhile_dropWhile isPySpaceB l

theorem pyStrip_pyStrip (l : List Nat) : pyStrip (pyStrip l) = pyStrip l := by
  show pyRStrip (pyLStrip (pyRStrip (pyLStrip l))) = pyRStrip (pyLStrip l)
  rw [pyLStrip_pyRStrip, pyLStrip_pyLStrip, pyRStrip_pyRStrip]

theorem pyLower_pyStrip (l : List Nat) : pyLower (pyStrip l) = pyStrip (pyLower l) := by
  have hfun : (isPySpaceB ∘ pyLowerChar) = isPySpaceB := funext isPySpaceB_pyLowerChar
  show (((l.dropWhile isPySpaceB).reverse.dropWhile isPySpaceB).reverse).map pyLowerChar =
    (((l.map pyLowerChar).dropWhile isPySpaceB).reverse.dropWhile isPySpaceB).reverse
  rw [List.dropWhile_map, hfun, ← List.map_reverse, List.dropWhile_map, hfun,
    ← List.map_reverse]

theorem normalize_pyStrip (s : List Nat) :
    normalize_city_name (pyStrip s) = normalize_city_name s := by
  by_cases hs : s = []
  · subst hs; rfl
  · by_cases hps : pyStrip s = []
    · rw [hps]
      have h1 : pyStrip (pyLower s) = [] := by
        rw [← pyLower_pyStrip, hps]; rfl
      simp only [normalize_city_name, hs, if_false, h1, if_pos rfl]
      rfl
    · simp only [normalize_city_name, hs, hps, if_false]
      rw [pyLower_pyStrip, pyStrip_pyStrip]

theorem flmI_self (a b : List Nat) (blo : Nat) (idxs : List Nat)
    (j2len : List (Nat × Nat)) (best : MatchBlock) :
    flmI a b blo blo idxs j2len best = best := by
  induction idxs generalizing j2len best with
  | nil => rfl
  | cons i rest ih =>
    show flmI a b blo blo (i :: rest) j2len best = best
    have hmi : matchIndices b blo blo (a.getD i 0) = [] := by
      simp [matchIndices]
    simp only [flmI, hmi, flmJ]
    exact ih _ _

theorem extFwdF_bhi_zero (a b : List Nat) (ahi fuel : Nat) (m : MatchBlock) :
    extFwdF a b ahi 0 fuel m = m := by
  cases fuel with
  | zero => rfl
  | succ f =>
    simp only [extFwdF]
    rw [if_neg (fun h => Nat.not_lt_zero _ h.2.1)]

theorem find_longest_match_nil_b (k : List Nat) (ahi : Nat) :
    find_longest_match k [] 0 ahi 0 0 = ⟨0, 0, 0⟩ := by
  unfold find_longest_match
  rw [flmI_self]
  show extFwdF k [] ahi 0 _ (extBackF k [] 0 0 0 ⟨0, 0, 0⟩) = _
  rw [show extBackF k [] 0 0 0 ⟨0, 0, 0⟩ = ⟨0, 0, 0⟩ from rfl]
  exact extFwdF_bhi_zero _ _ _ _ _

theorem ratio_nil_false (k : List Nat) (hk : k ≠ []) :
    fracLe (4, 5) (ratioPair k []) = false := by
  have hT : k.length + List.length ([] : List Nat) ≠ 0 := by
    simp [List.length_eq_zero, hk]
  have htm : totalMatched k [] (k.length + List.length ([] : List Nat) + 1) 0 k.length 0
      (List.length ([] : List Nat)) = 0 := by
    show totalMatched k [] (k.length + 0 + 1) 0 k.length 0 0 = 0
    simp [totalMatched, find_longest_match_nil_b]
  simp only [ratioPair, hT, if_false, htm]
  apply decide_eq_false
  simp only [List.length_nil] at hT
  omega

theorem foldl_choice_mem {α : Type} (f : α → α → Bool) (cs : List α) (c : α) :
    cs.foldl (fun bst x => if f x bst then x else bst) c ∈ c :: cs := by
  induction cs generalizing c with
  | nil => exact List.mem_singleton.mpr rfl
  | cons d ds ih =>
    by_cases hf : f d c = true
    · rw [List.foldl_cons]
      simp only [hf, if_true]
      exact List.mem_cons_of_mem _ (ih d)
    · rw [List.foldl_cons]
      simp only [hf, if_false, Bool.false_eq_true]
      rcases List.mem_cons.mp (ih c) with h1 | h1
      · rw [h1]
        exact List.mem_cons_self _ _
      · exact List.mem_cons_of_mem _ (List.mem_cons_of_mem _ h1)

theorem pickBest_mem (w : List Nat) (cands : List (List Nat)) (m : List Nat)
    (h : pickBest w cands = some m) : m ∈ cands := by
  match cands with
  | [] => simp [pickBest] at h
  | c :: cs =>
    simp only [pickBest, Option.some.injEq] at h
    rw [← h]
    exact foldl_choice_mem _ cs c

set_option maxRecDepth 1000000

theorem all_locations_ne_nil : ∀ k ∈ defaultStandardizer.all_locations, k ≠ [] := by decide

theorem lookupChain_all_locations :
    ∀ m ∈ defaultStandardizer.all_locations, defaultStandardizer.lookupChain m ≠ none := by
  decide

theorem resolve_code_of_close (s : List Nat)
    (h : ∃ k ∈ defaultStandardizer.all_locations,
      fracLe (4, 5) (ratioPair k (normalize_city_name s)) = true) :
    (resolveLoc s).airport_code ≠ none := by
  obtain ⟨k, hkmem, hkr⟩ := h
  have hknil : k ≠ [] := all_locations_ne_nil k hkmem
  have hnorm_ne : normalize_city_name s ≠ [] := by
    intro hN
    rw [hN, ratio_nil_false k hknil] at hkr
    exact Bool.false_ne_true hkr
  have hs : s ≠ [] := fun h0 => hnorm_ne (by rw [h0]; rfl)
  have hps : pyStrip s ≠ [] := fun h0 => hnorm_ne (by rw [← normalize_pyStrip, h0]; rfl)
  have hgac : defaultStandardizer.get_airport_code (pyStrip s) ≠ none := by
    simp only [CityStandardizer.get_airport_code]
    rw [if_neg hps, normalize_pyStrip]
    cases hchain : defaultStandardizer.lookupChain (normalize_city_name s) with
    | some code => simp
    | none =>
      cases hcc : closeCandidates (normalize_city_name s)
          defaultStandardizer.all_locations (4, 5) with
      | nil =>
        have hmemf : k ∈ closeCandidates (normalize_city_name s)
            defaultStandardizer.all_locations (4, 5) :=
          List.mem_filter.mpr ⟨hkmem, hkr⟩
        rw [hcc] at hmemf
        exact absurd hmemf (List.not_mem_nil k)
      | cons c cs =>
        have hgcm : get_close_match (normalize_city_name s)
            defaultStandardizer.all_locations (4, 5) =
            some (cs.foldl
              (fun bst x => if betterCand (normalize_city_name s) x bst then x else bst) c) := by
          rw [get_close_match, hcc]
          rfl
        rw [hgcm]
        show defaultStandardizer.lookupChain _ ≠ none
        apply lookupChain_all_locations
        have hmemf : (cs.foldl
            (fun bst x => if betterCand (normalize_city_name s) x bst then x else bst) c) ∈
            closeCandidates (normalize_city_name s) defaultStandardizer.all_locations (4, 5) := by
          rw [hcc]
          exact foldl_choice_mem _ cs c
        exact (List.mem_filter.mp hmemf).1
  show (defaultStandardizer.standardize_location_input s).airport_code ≠ none
  simp only [CityStandardizer.standardize_location_input]
  rw [if_neg hs]
  by_cases hvalid : defaultStandardizer.is_valid_airport_code (pyStrip s) = true
  · rw [if_pos hvalid]
    simp
  · rw [if_neg hvalid]
    simp only [CityStandardizer.get_standardized_city_info]
    rw [if_neg hps]
    exact hgac

theorem invoke_tools_map_toolCallId (toolExec : ToolExec) (tcs : List ToolCall) :
    (invoke_tools toolExec tcs).map msgToolCallId = tcs.map (fun t => some t.id) := by
  induction tcs with
  | nil => rfl
  | cons t rest ih =>
    by_cases h : t.name ∈ toolRegistry <;>
      simp [invoke_tools, msgToolCallId, h, ih]

theorem invoke_tools_unique (toolExec : ToolExec) (tcs : List ToolCall) :
    (tcs.map ToolCall.id).Nodup →
      ∀ r ∈ invoke_tools toolExec tcs, ∃! t, t ∈ tcs ∧ msgToolCallId r = some t.id := by
  induction tcs with
  | nil =>
    intro _ r hr
    cases hr
  | cons t rest ih =>
    intro hnd r hr
    rw [List.map_cons, List.nodup_cons] at hnd
    simp only [invoke_tools] at hr
    rcases List.mem_cons.mp hr with h1 | h1
    · have hid : msgToolCallId r = some t.id := by
        rw [h1]
        by_cases hn : t.name ∈ toolRegistry <;> simp [hn, msgToolCallId]
      refine ⟨t, ⟨List.mem_cons_self _ _, hid⟩, ?_⟩
      rintro t2 ⟨ht2mem, ht2id⟩
      rcases List.mem_cons.mp ht2mem with h2 | h2
      · exact h2
      · have hii : t2.id = t.id := by
          rw [hid] at ht2id
          exact Option.some.inj ht2id.symm
        exact absurd (hii ▸ List.mem_map_of_mem ToolCall.id h2) hnd.1
    · obtain ⟨t0, ⟨ht0mem, ht0id⟩, huniq⟩ := ih hnd.2 r h1
      refine ⟨t0, ⟨List.mem_cons_of_mem _ ht0mem, ht0id⟩, ?_⟩
      rintro t2 ⟨ht2mem, ht2id⟩
      rcases List.mem_cons.mp ht2mem with h2 | h2
      · subst h2
        have hii : t0.id = t2.id := by
          rw [ht0id] at ht2id
          exact Option.some.inj ht2id
        exact absurd (hii ▸ List.mem_map_of_mem ToolCall.id ht0mem) hnd.1
      · exact huniq t2 ⟨h2, ht2id⟩

theorem exists_action_append_ai (messages : List AgentMsg) (c : String) (tcs : List ToolCall) :
    exists_action (messages ++ [AgentMsg.ai c tcs]) =
      if tcs.length = 0 then NextNode.endNode else NextNode.more_tools := by
  simp [exists_action, List.getLast?_concat]

/-! ### Claim theorems -/

/-- Claim C5 (confirmed): for every input shaped as exactly three letters, the
resolver's `standardize_location_input` returns the case-folded identifier as
`normalized`, `airport_code` and `canonical_name`, with `is_airport_code = true`
and no alternatives, for every table state `cs` — so no city-, country-,
alias-table or fuzzy lookup influences the result. -/
theorem C5_theorem (cs : CityStandardizer) (c1 c2 c3 : Nat)
    (h1 : isAsciiAlphaB c1 = true) (h2 : isAsciiAlphaB c2 = true)
    (h3 : isAsciiAlphaB c3 = true) :
    cs.standardize_location_input [c1, c2, c3] =
      ⟨[c1, c2, c3], pyUpper [c1, c2, c3], some (pyUpper [c1, c2, c3]),
        pyUpper [c1, c2, c3], true, []⟩ := by
  have hs1 := isPySpaceB_of_alpha h1
  have hs2 := isPySpaceB_of_alpha h2
  have hs3 := isPySpaceB_of_alpha h3
  have hstrip : pyStrip [c1, c2, c3] = [c1, c2, c3] := by
    simp [pyStrip, pyLStrip, pyRStrip, List.dropWhile_cons, hs1, hs2, hs3]
  have hvalid : cs.is_valid_airport_code (pyStrip [c1, c2, c3]) = true := by
    rw [hstrip]
    simp only [CityStandardizer.is_valid_airport_code]
    rw [if_neg (by simp)]
    show (isUpperAlphaB (pyUpperChar c1) && isUpperAlphaB (pyUpperChar c2) &&
      isUpperAlphaB (pyUpperChar c3)) = true
    rw [isUpperAlphaB_pyUpperChar h1, isUpperAlphaB_pyUpperChar h2,
      isUpperAlphaB_pyUpperChar h3]
    rfl
  simp only [CityStandardizer.standardize_location_input]
  rw [if_neg (by simp : ¬([c1, c2, c3] = [])), hstrip, if_pos (hstrip ▸ hvalid)]

/-- Witness for C5 at the concrete input `lax`. -/
theorem C5_witness :
    defaultStandardizer.standardize_location_input (S "lax") =
      ⟨S "lax", S "LAX", some (S "LAX"), S "LAX", true, []⟩ :=
  C5_theorem defaultStandardizer 108 97 120 (by decide) (by decide) (by decide)

/-- Claim C6 (confirmed): (1) whenever some key of the union of the city,
country and alias tables has edit-sequence similarity at least 0.8 (the
fraction 4/5) to the input's normalized form, `resolve` returns a non-null
airport code; (2) for the input `e` the best similarity over all keys is
exactly 0.5 (every key's ratio is at most 1/2, some key's ratio equals 1/2),
and `resolve` returns a null code. -/
theorem C6_theorem :
    (∀ s : List Nat,
        (∃ k ∈ defaultStandardizer.all_locations,
          fracLe (4, 5) (ratioPair k (normalize_city_name s)) = true) →
        (resolveLoc s).airport_code ≠ none) ∧
    ((∀ k ∈ defaultStandardizer.all_locations,
        fracLe (ratioPair k (normalize_city_name (S "e"))) (1, 2) = true) ∧
      (∃ k ∈ defaultStandardizer.all_locations,
        fracEq (ratioPair k (normalize_city_name (S "e"))) (1, 2) = true) ∧
      (resolveLoc (S "e")).airport_code = none) :=
  ⟨resolve_code_of_close, by decide⟩

/-- Witness for C6 at the concrete misspelling `durbn` of `durban`
(similarity 10/11 ≥ 0.8). -/
theorem C6_witness : (resolveLoc (S "durbn")).airport_code ≠ none :=
  C6_theorem.1 (S "durbn") ⟨S "durban", by decide, by decide⟩

/-- Counterexample for claim C1: with both locations resolvable and the
collaborator raising, `flights_finder` does not return an empty result list;
and a non-`SerpApiError` exception in `hotels_finder` propagates past the tool
boundary. -/
theorem C1_counterexample :
    flights_finder flightsDurbanHarare SerpFlightsResponse.exc ≠
      FlightsResult.results [] ∧
    hotels_finder hotelsUnresolvable SerpHotelsResponse.otherError =
      Except.error () := by
  exact ⟨by decide, rfl⟩

/-- Claim C1 (corrected): a transport failure is caught, but the tool returns a
fixed non-empty sample list, not an empty one: `flights_finder` catches every
exception and returns the three-record sample list; `hotels_finder` catches
only `SerpApiError` (returning the three-record sample hotel list) and lets
any other exception propagate. -/
theorem C1_theorem :
    (∀ (params : FlightsInput) (d a : List Nat),
      defaultStandardizer.get_airport_code params.departure_location = some d →
      defaultStandardizer.get_airport_code params.arrival_location = some a →
      flights_finder params SerpFlightsResponse.exc =
        FlightsResult.results (sampleFlightsOnError d a) ∧
      sampleFlightsOnError d a ≠ []) ∧
    (∀ params : HotelsInput,
      hotels_finder params SerpHotelsResponse.serpApiError =
        Except.ok ((sampleHotels params.location).map HotelRecordOut.sample) ∧
      (sampleHotels params.location).map HotelRecordOut.sample ≠ [] ∧
      hotels_finder params SerpHotelsResponse.otherError = Except.error ()) := by
  constructor
  · intro params d a hd ha
    exact ⟨by simp [flights_finder, hd, ha], by simp [sampleFlightsOnError]⟩
  · intro params
    exact ⟨rfl, by simp [sampleHotels], rfl⟩

/-- Witness for C1 at the concrete query Durban → Harare and a concrete hotel
query. -/
theorem C1_witness :
    (flights_finder flightsDurbanHarare SerpFlightsResponse.exc =
        FlightsResult.results (sampleFlightsOnError (S "DUR") (S "HRE")) ∧
      sampleFlightsOnError (S "DUR") (S "HRE") ≠ []) ∧
    (hotels_finder hotelsUnresolvable SerpHotelsResponse.serpApiError =
        Except.ok ((sampleHotels (S "xyzzyq")).map HotelRecordOut.sample) ∧
      (sampleHotels (S "xyzzyq")).map HotelRecordOut.sample ≠ [] ∧
      hotels_finder hotelsUnresolvable SerpHotelsResponse.otherError =
        Except.error ()) :=
  ⟨C1_theorem.1 flightsDurbanHarare (S "DUR") (S "HRE") (by decide) (by decide),
   C1_theorem.2 hotelsUnresolvable⟩

/-- Counterexample for claim C2: the error carried by `flights_finder` for an
unresolvable departure is not of the claimed form
`could not resolve location: <text>`; and `hotels_finder` does invoke the
collaborator on an unresolvable location (its result depends on the
collaborator's response). -/
theorem C2_counterexample :
    flights_finder flightsUnresolvable SerpFlightsResponse.exc =
      FlightsResult.errorResult
        (S "Could not find airport code for departure location: xyzzyq") [] ∧
    S "Could not find airport code for departure location: xyzzyq" ≠
      S "could not resolve location: xyzzyq" ∧
    hotels_finder hotelsUnresolvable (SerpHotelsResponse.ok [emptyHotelProperty]) ≠
      hotels_finder hotelsUnresolvable SerpHotelsResponse.serpApiError := by
  exact ⟨by decide, by decide, by decide⟩

/-- Claim C2 (corrected): `flights_finder` does gate on resolution — for an
unresolvable location it returns, independently of the collaborator's
behavior, the structured error
`{error: "Could not find airport code for departure|arrival location: <text>",
flights: []}` — but `hotels_finder` has no such gate and always invokes the
collaborator. -/
theorem C2_theorem :
    (∀ (params : FlightsInput) (api : SerpFlightsResponse),
      defaultStandardizer.get_airport_code params.departure_location = none →
      flights_finder params api =
        FlightsResult.errorResult
          (S "Could not find airport code for departure location: " ++
            params.departure_location) []) ∧
    (∀ (params : FlightsInput) (api : SerpFlightsResponse) (d : List Nat),
      defaultStandardizer.get_airport_code params.departure_location = some d →
      defaultStandardizer.get_airport_code params.arrival_location = none →
      flights_finder params api =
        FlightsResult.errorResult
          (S "Could not find airport code for arrival location: " ++
            params.arrival_location) []) ∧
    (∀ (params : HotelsInput) (h : ApiHotelProperty),
      hotels_finder params (SerpHotelsResponse.ok [h]) ≠
        hotels_finder params SerpHotelsResponse.serpApiError) := by
  refine ⟨?_, ?_, ?_⟩
  · intro params api hd
    simp [flights_finder, hd]
  · intro params api d hd ha
    simp [flights_finder, hd, ha]
  · intro params h heq
    simp [hotels_finder, sampleHotels] at heq

/-- Witness for C2 at the concrete unresolvable location `xyzzyq`. -/
theorem C2_witness :
    (flights_finder flightsUnresolvable SerpFlightsResponse.exc =
      FlightsResult.errorResult
        (S "Could not find airport code for departure location: " ++ S "xyzzyq") []) ∧
    (hotels_finder hotelsUnresolvable (SerpHotelsResponse.ok [emptyHotelProperty]) ≠
      hotels_finder hotelsUnresolvable SerpHotelsResponse.serpApiError) :=
  ⟨C2_theorem.1 flightsUnresolvable SerpFlightsResponse.exc (by decide),
   C2_theorem.2.2 hotelsUnresolvable emptyHotelProperty⟩

/-- Claim C3 (code bug): normalization strips the dot before the abbreviation
replacement runs, so `st. louis` normalizes to `st louis`, never to a string
containing `saint`; and the underscore, being part of regex `\w`, survives
normalization instead of being stripped. -/
theorem C3_theorem :
    normalize_city_name (S "st. louis") = S "st louis" ∧
    isSubstr (S "saint") (normalize_city_name (S "st. louis")) = false ∧
    normalize_city_name (S "a_b") = S "a_b" := by
  exact ⟨by decide, by decide, by decide⟩

/-- Counterexample for claim C4: `nyc` is an alias key of canonical city
`new york`, yet `resolve("nyc")` passes through as code `NYC` while
`resolve("new york")` gives `JFK`. -/
theorem C4_counterexample :
    tblLookup defaultStandardizer.city_aliases (S "nyc") = some (S "new york") ∧
    (resolveLoc (S "nyc")).airport_code = some (S "NYC") ∧
    (resolveLoc (S "new york")).airport_code = some (S "JFK") ∧
    (resolveLoc (S "nyc")).airport_code ≠ (resolveLoc (S "new york")).airport_code := by
  exact ⟨by decide, by decide, by decide, by decide⟩

/-- Claim C4 (corrected): for every alias pair `(a, c)` of the alias table,
`get_airport_code(a) = get_airport_code(c)`; and `resolve(a).code =
resolve(c).code` for every alias key except `nyc`, which is shaped as a
3-letter code and is passed through as `NYC` before any alias lookup. -/
theorem C4_theorem :
    ∀ p ∈ defaultStandardizer.city_aliases,
      getCode p.1 = getCode p.2 ∧
      (p.1 ≠ S "nyc" → (resolveLoc p.1).airport_code = (resolveLoc p.2).airport_code) := by
  decide

/-- Witness for C4 at the concrete alias pair `joburg → johannesburg`. -/
theorem C4_witness :
    getCode (S "joburg") = getCode (S "johannesburg") ∧
    (resolveLoc (S "joburg")).airport_code =
      (resolveLoc (S "johannesburg")).airport_code :=
  ⟨(C4_theorem (S "joburg", S "johannesburg") (by decide)).1,
   (C4_theorem (S "joburg", S "johannesburg") (by decide)).2 (by decide)⟩

/-- Claim C7 (confirmed): a ToolCall with an unregistered name yields a
ToolMessage whose content is the retry instruction (instead of a raised
fault), and with the stubbed oracle that first emits one unregistered
ToolCall and then zero ToolCalls, the process finishes in exactly two rounds
(it completes with fuel 2 and does not complete with fuel 1), with the retry
ToolResult appended to history between the two decisions. -/
theorem C7_theorem :
    (∀ (toolExec : ToolExec) (tcs : List ToolCall) (t : ToolCall),
      t ∈ tcs → t.name ∉ toolRegistry →
      AgentMsg.tool t.id t.name badToolContent ∈ invoke_tools toolExec tcs) ∧
    (∀ (toolExec : ToolExec) (user_text : String),
      runAgent unknownToolStub toolExec 2 [AgentMsg.human user_text] =
        some ("final answer",
          [AgentMsg.human user_text,
           AgentMsg.ai "" [⟨"call_1", "weather_finder", []⟩],
           AgentMsg.tool "call_1" "weather_finder" badToolContent,
           AgentMsg.ai "final answer" []]) ∧
      runAgent unknownToolStub toolExec 1 [AgentMsg.human user_text] = none) := by
  constructor
  · intro toolExec tcs t hmem hname
    induction tcs with
    | nil => cases hmem
    | cons hd rest ih =>
      rcases List.mem_cons.mp hmem with h1 | h1
      · simp only [invoke_tools]
        rw [← h1, if_neg hname]
        exact List.mem_cons_self _ _
      · simp only [invoke_tools]
        exact List.mem_cons_of_mem _ (ih h1)
  · intro toolExec user_text
    exact ⟨rfl, rfl⟩

/-- Witness for C7 at a concrete unregistered ToolCall and user text. -/
theorem C7_witness :
    AgentMsg.tool "w1" "weather_finder" badToolContent ∈
      invoke_tools nullToolExec [⟨"w1", "weather_finder", []⟩] ∧
    runAgent unknownToolStub nullToolExec 2 [AgentMsg.human "hi"] =
      some ("final answer",
        [AgentMsg.human "hi",
         AgentMsg.ai "" [⟨"call_1", "weather_finder", []⟩],
         AgentMsg.tool "call_1" "weather_finder" badToolContent,
         AgentMsg.ai "final answer" []]) ∧
    runAgent unknownToolStub nullToolExec 1 [AgentMsg.human "hi"] = none :=
  ⟨C7_theorem.1 nullToolExec [⟨"w1", "weather_finder", []⟩] ⟨"w1", "weather_finder", []⟩
      (List.mem_singleton.mpr rfl) (by decide),
   (C7_theorem.2 nullToolExec "hi").1,
   (C7_theorem.2 nullToolExec "hi").2⟩

/-- Claim C8 (confirmed): one loop round transitions to tool execution exactly
when the oracle's message carries at least one ToolCall and terminates with
that message as the final answer exactly when it carries none; in particular
zero ToolCalls on the first decision ends `process` with only the user message
and the answer in history — no tool executions (the result is the same for
every `toolExec`). -/
theorem C8_theorem :
    (∀ (oracle : Oracle) (toolExec : ToolExec) (fuel : Nat) (messages : List AgentMsg),
      ((oracle (toolsSystemPromptMsg :: messages)).2 = [] →
        runAgent oracle toolExec (fuel + 1) messages =
          some ((oracle (toolsSystemPromptMsg :: messages)).1,
            messages ++ [call_tools_llm oracle messages])) ∧
      ((oracle (toolsSystemPromptMsg :: messages)).2 ≠ [] →
        runAgent oracle toolExec (fuel + 1) messages =
          runAgent oracle toolExec fuel
            (messages ++ [call_tools_llm oracle messages] ++
              invoke_tools toolExec (oracle (toolsSystemPromptMsg :: messages)).2))) ∧
    (∀ (oracle : Oracle) (toolExec : ToolExec) (fuel : Nat) (user_text : String),
      (oracle [toolsSystemPromptMsg, AgentMsg.human user_text]).2 = [] →
        process oracle toolExec (fuel + 1) user_text =
          some ((oracle [toolsSystemPromptMsg, AgentMsg.human user_text]).1,
            [AgentMsg.human user_text,
             AgentMsg.ai (oracle [toolsSystemPromptMsg, AgentMsg.human user_text]).1 []])) := by
  have hstep : ∀ (oracle : Oracle) (toolExec : ToolExec) (fuel : Nat)
      (messages : List AgentMsg),
      ((oracle (toolsSystemPromptMsg :: messages)).2 = [] →
        runAgent oracle toolExec (fuel + 1) messages =
          some ((oracle (toolsSystemPromptMsg :: messages)).1,
            messages ++ [call_tools_llm oracle messages])) ∧
      ((oracle (toolsSystemPromptMsg :: messages)).2 ≠ [] →
        runAgent oracle toolExec (fuel + 1) messages =
          runAgent oracle toolExec fuel
            (messages ++ [call_tools_llm oracle messages] ++
              invoke_tools toolExec (oracle (toolsSystemPromptMsg :: messages)).2)) := by
    intro oracle toolExec fuel messages
    constructor
    · intro h0
      show (match exists_action (messages ++ [call_tools_llm oracle messages]) with
        | NextNode.endNode =>
          some (msgContent (call_tools_llm oracle messages),
            messages ++ [call_tools_llm oracle messages])
        | NextNode.more_tools =>
          runAgent oracle toolExec fuel
            ((messages ++ [call_tools_llm oracle messages]) ++
              invoke_tools toolExec (msgToolCalls (call_tools_llm oracle messages)))) = _
      rw [show call_tools_llm oracle messages =
        AgentMsg.ai (oracle (toolsSystemPromptMsg :: messages)).1
          (oracle (toolsSystemPromptMsg :: messages)).2 from rfl]
      rw [exists_action_append_ai, h0]
      rfl
    · intro h1
      show (match exists_action (messages ++ [call_tools_llm oracle messages]) with
        | NextNode.endNode =>
          some (msgContent (call_tools_llm oracle messages),
            messages ++ [call_tools_llm oracle messages])
        | NextNode.more_tools =>
          runAgent oracle toolExec fuel
            ((messages ++ [call_tools_llm oracle messages]) ++
              invoke_tools toolExec (msgToolCalls (call_tools_llm oracle messages)))) = _
      rw [show call_tools_llm oracle messages =
        AgentMsg.ai (oracle (toolsSystemPromptMsg :: messages)).1
          (oracle (toolsSystemPromptMsg :: messages)).2 from rfl]
      rw [exists_action_append_ai,
        if_neg (fun hlen => h1 (List.length_eq_zero.mp hlen))]
      rfl
  refine ⟨hstep, ?_⟩
  intro oracle toolExec fuel user_text h0
  have h := (hstep oracle toolExec fuel [AgentMsg.human user_text]).1 h0
  rw [show process oracle toolExec (fuel + 1) user_text =
    runAgent oracle toolExec (fuel + 1) [AgentMsg.human user_text] from rfl, h]
  rw [show call_tools_llm oracle [AgentMsg.human user_text] =
    AgentMsg.ai (oracle [toolsSystemPromptMsg, AgentMsg.human user_text]).1
      (oracle [toolsSystemPromptMsg, AgentMsg.human user_text]).2 from rfl, h0]
  rfl

/-- Witness for C8 at concrete stub oracles. -/
theorem C8_witness :
    runAgent endStub nullToolExec 1 [] = some ("done", [AgentMsg.ai "done" []]) ∧
    runAgent oneCallStub nullToolExec 1 [] =
      runAgent oneCallStub nullToolExec 0
        ([] ++ [call_tools_llm oneCallStub []] ++
          invoke_tools nullToolExec (oneCallStub [toolsSystemPromptMsg]).2) ∧
    process endStub nullToolExec 1 "hi" =
      some ("done", [AgentMsg.human "hi", AgentMsg.ai "done" []]) :=
  ⟨(C8_theorem.1 endStub nullToolExec 0 []).1 rfl,
   (C8_theorem.1 oneCallStub nullToolExec 0 []).2 (by decide),
   C8_theorem.2 endStub nullToolExec 0 "hi" rfl⟩

/-- Claim C9 (confirmed): `invoke_tools` yields exactly one ToolResult per
ToolCall, in emission order — the list of `tool_call_id`s equals the list of
the calls' ids — and when the round's ids are distinct every produced
ToolResult references exactly one ToolCall of that round. -/
theorem C9_theorem (toolExec : ToolExec) (tcs : List ToolCall) :
    (invoke_tools toolExec tcs).map msgToolCallId = tcs.map (fun t => some t.id) ∧
    ((tcs.map ToolCall.id).Nodup →
      ∀ r ∈ invoke_tools toolExec tcs, ∃! t, t ∈ tcs ∧ msgToolCallId r = some t.id) :=
  ⟨invoke_tools_map_toolCallId toolExec tcs, invoke_tools_unique toolExec tcs⟩

/-- Witness for C9 at a concrete two-call round (one registered, one not). -/
theorem C9_witness :
    ((invoke_tools nullToolExec
        [⟨"a", "flights_finder", []⟩, ⟨"b", "bogus", []⟩]).map msgToolCallId =
      [some "a", some "b"]) ∧
    (∃! t, t ∈ [(⟨"a", "flights_finder", []⟩ : ToolCall), ⟨"b", "bogus", []⟩] ∧
      msgToolCallId (AgentMsg.tool "b" "bogus" badToolContent) = some t.id) :=
  ⟨(C9_theorem nullToolExec [⟨"a", "flights_finder", []⟩, ⟨"b", "bogus", []⟩]).1,
   (C9_theorem nullToolExec [⟨"a", "flights_finder", []⟩, ⟨"b", "bogus", []⟩]).2
     (by decide) (AgentMsg.tool "b" "bogus" badToolContent) (by decide)⟩

/-- Claim C10 (confirmed): with both locations resolved, `flights_finder`
always returns a non-empty list; when the provider reports no flights it
returns the fixed five-record sample list, and when the provider raises it
returns the fixed three-record sample list — indistinguishable fabricated
data in place of an empty result. -/
theorem C10_theorem (params : FlightsInput) (d a : List Nat) (api : SerpFlightsResponse)
    (hd : defaultStandardizer.get_airport_code params.departure_location = some d)
    (ha : defaultStandardizer.get_airport_code params.arrival_location = some a) :
    (∃ l, flights_finder params api = FlightsResult.results l ∧ l ≠ []) ∧
    (api = SerpFlightsResponse.ok [] [] →
      flights_finder params api = FlightsResult.results (sampleFlightsNoResults d a)) ∧
    (api = SerpFlightsResponse.exc →
      flights_finder params api = FlightsResult.results (sampleFlightsOnError d a)) := by
  refine ⟨?_, ?_, ?_⟩
  · cases api with
    | exc =>
      exact ⟨sampleFlightsOnError d a, by simp [flights_finder, hd, ha],
        by simp [sampleFlightsOnError]⟩
    | ok b o =>
      simp only [flights_finder, hd, ha]
      by_cases hres : (if b ++ o ≠ [] then transform_serpapi_flights (b ++ o) else []) = []
      · exact ⟨sampleFlightsNoResults d a, by rw [if_pos hres],
          by simp [sampleFlightsNoResults]⟩
      · exact ⟨_, by rw [if_neg hres], hres⟩
  · rintro rfl
    simp [flights_finder, hd, ha]
  · rintro rfl
    simp [flights_finder, hd, ha]

/-- Witness for C10 at the concrete query Durban → Harare. -/
theorem C10_witness :
    (∃ l, flights_finder flightsDurbanHarare SerpFlightsResponse.exc =
        FlightsResult.results l ∧ l ≠ []) ∧
    flights_finder flightsDurbanHarare SerpFlightsResponse.exc =
      FlightsResult.results (sampleFlightsOnError (S "DUR") (S "HRE")) :=
  ⟨(C10_theorem flightsDurbanHarare (S "DUR") (S "HRE") SerpFlightsResponse.exc
      (by decide) (by decide)).1,
   (C10_theorem flightsDurbanHarare (S "DUR") (S "HRE") SerpFlightsResponse.exc
      (by decide) (by decide)).2.2 rfl⟩
